import Mathlib

/-!
# DashOrg persisted-state engine: shallow embedding and verification

This file embeds the persisted-state core of the DashOrg repository
(StorageService and CryptoService in src/core/storage.js and src/core/crypto.js,
StateManager in src/core/state.js, MigrationService in src/core/migrations.js,
CONFIG in src/config.js) and proves or refutes the specification claims about it.

Modelling conventions:
- JavaScript objects become Lean structures; fields that may be absent or null
  become Option types.
- The browser clock is passed explicitly: a Clock value carries the strings the
  code would obtain from new Date().toISOString() (field now), from
  new Date(Date.now() - 86400000).toISOString().split('T')[0] (field yesterday)
  and from getDeviceInfo() (field device).
- dateOf models x.toISOString().split('T')[0] applied to an ISO-8601 UTC
  timestamp string: it takes the text before the first 'T'.
- JS truthiness on optional strings (null/undefined/empty string are falsy) is
  modelled by jsTruthyStr; the x || d idiom on strings by jsOrStr.
- Random id generation (generateId) is passed in as an explicit argument.
- Machine integers: all the counters involved only ever increment, so Nat is
  used directly; no overflow behaviour is reachable in the modelled paths.
-/

namespace DashOrg

/-! ## JS-semantics helpers -/

/-- Models JS truthiness of a nullable string: null/undefined and the empty
string are falsy, every other string is truthy. -/
def jsTruthyStr : Option String → Bool
  | none => false
  | some s => !(s == "")

/-- Models the JS idiom v || d for a nullable string v and default d. -/
def jsOrStr (v : Option String) (d : String) : String :=
  match v with
  | none => d
  | some s => if s == "" then d else s

/-- Characters before the first occurrence of 'T'. -/
def takeUntilT : List Char → List Char
  | [] => []
  | c :: cs => if c == 'T' then [] else c :: takeUntilT cs

/-- Models x.toISOString().split('T')[0] for an ISO-8601 UTC timestamp string:
the text before the first 'T' (the whole string if there is no 'T'). -/
def dateOf (ts : String) : String :=
  String.mk (takeUntilT ts.data)

/-- ASCII-level lowercasing, modelling JS String.prototype.toLowerCase on the
character data of the strings involved. -/
def strToLower (s : String) : String :=
  String.mk (s.data.map Char.toLower)

/-- Boolean test: the first list is an initial segment of the second. -/
def isHeadOf : List Char → List Char → Bool
  | [], _ => true
  | _ :: _, [] => false
  | a :: as, b :: bs => a == b && isHeadOf as bs

/-- Boolean test: sub occurs contiguously somewhere in the second list. -/
def hasSubList (sub : List Char) : List Char → Bool
  | [] => isHeadOf sub []
  | c :: rest => isHeadOf sub (c :: rest) || hasSubList sub rest

/-- Models JS String.prototype.includes: q occurs as a contiguous substring
of s. -/
def strIncludes (s q : String) : Bool :=
  hasSubList q.data s.data

/-- Replace the first element satisfying p by its image under f, leaving the
rest of the list unchanged.  This models the JS pattern of calling find (or
findIndex) and then mutating the returned object (or slot) in place. -/
def replaceFirst (p : α → Bool) (f : α → α) : List α → List α
  | [] => []
  | x :: xs => if p x then f x :: xs else x :: replaceFirst p f xs

/-- Remove the first element satisfying p (models findIndex + splice(i, 1)). -/
def removeFirst (p : α → Bool) : List α → List α
  | [] => []
  | x :: xs => if p x then xs else x :: removeFirst p xs

/-! ## Data model (the persisted Document, src/core/storage.js and config.js) -/

/-- One entry of a credential's check-in history:
pushed as the object with fields timestamp (new Date().toISOString()) and
device (getDeviceInfo()). -/
structure HistoryEntry where
  timestamp : String
  device : String
deriving Repr, DecidableEq

/-- A credential attached to a site.  checkedInOn is null until the credential
is checked in; checkInHistory may be absent (undefined) on hand-made
or imported data, which the code treats as an empty list. -/
structure Credential where
  id : String
  label : String
  email : String
  password : String
  checkedInOn : Option String
  checkInHistory : Option (List HistoryEntry)
deriving Repr, DecidableEq

/-- A site entity.  category and tags may be absent; createdAt/updatedAt are
stamped by addSite/updateSite but may be absent on imported data. -/
structure Site where
  id : String
  name : String
  url : String
  category : Option String
  tags : Option (List String)
  credentials : List Credential
  createdAt : Option String
  updatedAt : Option String
deriving Repr, DecidableEq

/-- A display category. -/
structure Category where
  id : String
  name : String
  color : String
  icon : String
  order : Nat
deriving Repr, DecidableEq

/-- The aggregate analytics counters of the Document. -/
structure Analytics where
  totalCheckIns : Nat
  currentStreak : Nat
  longestStreak : Nat
  averageDaily : Nat
  sitesAdded : Nat
  sitesArchived : Nat
  lastCheckIn : Option String
deriving Repr, DecidableEq

/-- The settings fields read by the modelled operations (the nested
notification/security/display sub-objects are carried opaquely by the code and
never read by any operation modelled here, so they are omitted). -/
structure Settings where
  theme : String
  viewMode : String
  autoReset : Bool
  resetTime : String
deriving Repr, DecidableEq

/-- The persisted root Document (the value stored under the storage key). -/
structure DashState where
  version : Option String
  lastReset : String
  settings : Settings
  categories : List Category
  sites : List Site
  analytics : Analytics
deriving Repr, DecidableEq

/-- The values the code reads from the browser clock at one instant:
now models new Date().toISOString(), yesterday models
new Date(Date.now() - 86400000).toISOString().split('T')[0], and device models
getDeviceInfo(). -/
structure Clock where
  now : String
  yesterday : String
  device : String
deriving Repr, DecidableEq

/-! ## CONFIG constants (src/config.js) -/

def CONFIG_app_version : String := "2.1.0"

def CONFIG_features_checkInHistory : Bool := true

def CONFIG_limits_maxHistoryEntries : Nat := 100

def CONFIG_reset_autoReset : Bool := true

def CONFIG_theme_default : String := "auto"

def CONFIG_view_defaultMode : String := "grid"

def CONFIG_reset_resetTime : String := "00:00"

/-- CONFIG.defaultCategories: (name, color, icon) triples. -/
def CONFIG_defaultCategories : List (String × String × String) :=
  [("Finance", "#10b981", "💰"),
   ("Work", "#3b82f6", "💼"),
   ("Personal", "#8b5cf6", "👤"),
   ("Social Media", "#ec4899", "📱"),
   ("Entertainment", "#f59e0b", "🎬"),
   ("Utilities", "#6366f1", "⚡")]

/-! ## StorageService (src/core/storage.js) -/

namespace StorageService

/-- initializeDefaultState: the bootstrap default Document.  idGen stands for
the successive generateId() calls made while mapping the default categories. -/
def initializeDefaultState (c : Clock) (idGen : Nat → String) : DashState :=
  { version := some CONFIG_app_version
    lastReset := dateOf c.now
    settings :=
      { theme := CONFIG_theme_default
        viewMode := CONFIG_view_defaultMode
        autoReset := CONFIG_reset_autoReset
        resetTime := CONFIG_reset_resetTime }
    categories := CONFIG_defaultCategories.enum.map
      (fun p => { id := idGen p.1, name := p.2.1, color := p.2.2.1,
                  icon := p.2.2.2, order := p.1 })
    sites := []
    analytics :=
      { totalCheckIns := 0, currentStreak := 0, longestStreak := 0
        averageDaily := 0, sitesAdded := 0, sitesArchived := 0
        lastCheckIn := none } }

/-- updateStreak(state): reads analytics.lastCheckIn; if falsy sets
currentStreak to 1 and returns early (skipping the clamp); otherwise compares
its calendar date with yesterday and today, then clamps longestStreak up to
currentStreak. -/
def updateStreak (c : Clock) (st : DashState) : DashState :=
  let today := dateOf c.now
  if !(jsTruthyStr st.analytics.lastCheckIn) then
    { st with analytics := { st.analytics with currentStreak := 1 } }
  else
    let lastDate := dateOf (st.analytics.lastCheckIn.getD "")
    let a := st.analytics
    let a1 :=
      if lastDate == c.yesterday then
        { a with currentStreak := a.currentStreak + 1 }
      else if !(lastDate == today) then
        { a with currentStreak := 1 }
      else a
    let a2 :=
      if a1.currentStreak > a1.longestStreak then
        { a1 with longestStreak := a1.currentStreak }
      else a1
    { st with analytics := a2 }

/-- The history entry prepended by checkInCredential: the timestamp and the
device string of the current moment. -/
def entryOf (c : Clock) : HistoryEntry :=
  { timestamp := c.now, device := c.device }

/-- The in-place mutation checkInCredential performs on the found credential:
stamp checkedInOn with now, prepend a history entry (initializing the history
when the field is absent), and cut the history back to the configured maximum
when it exceeds it. -/
def checkInUpdCred (c : Clock) (cr : Credential) : Credential :=
  let cr1 := { cr with checkedInOn := some c.now }
  if CONFIG_features_checkInHistory then
    let hist := cr1.checkInHistory.getD []
    let hist1 := entryOf c :: hist
    let hist2 :=
      if hist1.length > CONFIG_limits_maxHistoryEntries then
        hist1.take CONFIG_limits_maxHistoryEntries
      else hist1
    { cr1 with checkInHistory := some hist2 }
  else cr1

/-- checkInCredential(siteId, credentialId): finds the site then the
credential (returning false if either is missing), stamps checkedInOn,
prepends a history entry and caps the history, bumps totalCheckIns, sets
analytics.lastCheckIn to now, and finally calls updateStreak.  Note the order:
lastCheckIn is overwritten with the current timestamp before updateStreak
reads it. -/
def checkInCredential (c : Clock) (siteId credId : String) (st : DashState) :
    Bool × DashState :=
  match st.sites.find? (fun s => s.id == siteId) with
  | none => (false, st)
  | some site =>
    match site.credentials.find? (fun cr => cr.id == credId) with
    | none => (false, st)
    | some _ =>
      let now := c.now
      let updSite : Site → Site := fun s =>
        let creds1 :=
          replaceFirst (fun cr => cr.id == credId) (checkInUpdCred c)
            s.credentials
        { s with credentials := creds1 }
      let sites1 := replaceFirst (fun s => s.id == siteId) updSite st.sites
      let st1 := { st with sites := sites1 }
      let st2 :=
        { st1 with analytics :=
            { st1.analytics with
                totalCheckIns := st1.analytics.totalCheckIns + 1
                lastCheckIn := some now } }
      (true, updateStreak c st2)

/-- resetCredential(siteId, credentialId): clears checkedInOn of the named
credential; false if the site or credential is missing. -/
def resetCredential (siteId credId : String) (st : DashState) :
    Bool × DashState :=
  match st.sites.find? (fun s => s.id == siteId) with
  | none => (false, st)
  | some site =>
    match site.credentials.find? (fun cr => cr.id == credId) with
    | none => (false, st)
    | some _ =>
      let clearCred : Credential → Credential := fun cr =>
        { cr with checkedInOn := none }
      let updSite : Site → Site := fun s =>
        { s with credentials :=
            replaceFirst (fun cr => cr.id == credId) clearCred s.credentials }
      (true,
       { st with
           sites := replaceFirst (fun s => s.id == siteId) updSite st.sites })

/-- resetAllCredentials(): clears every credential's checkedInOn across all
sites and stamps lastReset with today's date. -/
def resetAllCredentials (c : Clock) (st : DashState) : DashState :=
  { st with
      sites := st.sites.map (fun s =>
        { s with credentials :=
            s.credentials.map (fun cr => { cr with checkedInOn := none }) })
      lastReset := dateOf c.now }

/-- checkDailyReset(): no-op when settings.autoReset is false; otherwise runs
resetAllCredentials when lastReset differs from today's date. -/
def checkDailyReset (c : Clock) (st : DashState) : DashState :=
  if !st.settings.autoReset then st
  else if !(st.lastReset == dateOf c.now) then resetAllCredentials c st
  else st

/-- The argument object passed to addSite.  The optional id/createdAt/updatedAt
fields model a caller-supplied object that happens to carry those keys, which
the late spread (...siteData) lets override the generated values. -/
structure SiteData where
  id : Option String
  createdAt : Option String
  updatedAt : Option String
  name : String
  url : String
  category : Option String
  tags : Option (List String)
  credentials : List Credential
deriving Repr, DecidableEq

/-- The newSite object built by addSite: generated id and timestamps first,
then the spread of siteData, so caller-supplied id/createdAt/updatedAt win. -/
def mkNewSite (genId now : String) (d : SiteData) : Site :=
  { id := d.id.getD genId
    name := d.name
    url := d.url
    category := d.category
    tags := d.tags
    credentials := d.credentials
    createdAt := some (d.createdAt.getD now)
    updatedAt := some (d.updatedAt.getD now) }

/-- addSite(siteData): pushes the new site and bumps analytics.sitesAdded;
returns the new site.  genId stands for the generateId() call. -/
def addSite (c : Clock) (genId : String) (d : SiteData) (st : DashState) :
    Site × DashState :=
  let newSite := mkNewSite genId c.now d
  (newSite,
   { st with
       sites := st.sites ++ [newSite]
       analytics :=
         { st.analytics with sitesAdded := st.analytics.sitesAdded + 1 } })

/-- The updates object passed to updateSite; a some field is present in the
updates object (and overrides via spread), a none field is absent. -/
structure SiteUpdates where
  name : Option String
  url : Option String
  category : Option (Option String)
  tags : Option (Option (List String))
  credentials : Option (List Credential)
deriving Repr, DecidableEq

/-- The merged site built by updateSite: spread of the old site, then of the
updates, then updatedAt stamped with the current timestamp. -/
def applySiteUpdates (u : SiteUpdates) (now : String) (s : Site) : Site :=
  { s with
      name := u.name.getD s.name
      url := u.url.getD s.url
      category := u.category.getD s.category
      tags := u.tags.getD s.tags
      credentials := u.credentials.getD s.credentials
      updatedAt := some now }

/-- updateSite(id, updates): false if no site has the id, otherwise replaces
the first matching site with the merged object. -/
def updateSite (c : Clock) (id : String) (u : SiteUpdates) (st : DashState) :
    Bool × DashState :=
  match st.sites.find? (fun s => s.id == id) with
  | none => (false, st)
  | some _ =>
    let sites1 :=
      replaceFirst (fun s => s.id == id) (applySiteUpdates u c.now) st.sites
    (true, { st with sites := sites1 })

/-- deleteSite(id): false if no site has the id; otherwise splices out the
first match and bumps analytics.sitesArchived. -/
def deleteSite (id : String) (st : DashState) : Bool × DashState :=
  match st.sites.find? (fun s => s.id == id) with
  | none => (false, st)
  | some _ =>
    (true,
     { st with
         sites := removeFirst (fun s => s.id == id) st.sites
         analytics :=
           { st.analytics with
               sitesArchived := st.analytics.sitesArchived + 1 } })

/-- The argument object passed to addCategory; optional id/order model
caller-supplied keys overriding the generated ones via the late spread. -/
structure CategoryData where
  id : Option String
  order : Option Nat
  name : String
  color : String
  icon : String
deriving Repr, DecidableEq

/-- addCategory(categoryData): generated id, order = categories.length, then
the spread of categoryData; pushes the new category. -/
def addCategory (genId : String) (d : CategoryData) (st : DashState) :
    Category × DashState :=
  let nc : Category :=
    { id := d.id.getD genId
      order := d.order.getD st.categories.length
      name := d.name
      color := d.color
      icon := d.icon }
  (nc, { st with categories := st.categories ++ [nc] })

/-- The result of parsing (and, when enveloped, decrypting) an import string,
in the successful case: a valid object with an array sites field and an
optional categories field. -/
structure ImportPayload where
  sites : List Site
  categories : Option (List Category)
deriving Repr, DecidableEq

/-- importData: none models every failure path (JSON parse error, decryption
error, missing/non-array sites), which the catch converts into a false return
with the stored document untouched.  On success the imported sites are
appended to the existing ones and categories are overwritten only when
the import provides them; analytics is carried over unchanged. -/
def importData (p : Option ImportPayload) (st : DashState) :
    Bool × DashState :=
  match p with
  | none => (false, st)
  | some d =>
    (true,
     { st with
         sites := st.sites ++ d.sites
         categories :=
           match d.categories with
           | some cs => cs
           | none => st.categories })

end StorageService

/-! ## StateManager filters (src/core/state.js) -/

namespace StateManager

/-- The ephemeral filter state held by the StateManager (defaults: empty
search, status all, no category, no tags). -/
structure Filters where
  search : String
  status : String
  category : Option String
  tags : List String
deriving Repr, DecidableEq

/-- isToday(dateString): compares the calendar-date portion of the argument
with today's date.  The first argument is today's date string (what
new Date().toISOString().split('T')[0] yields at call time). -/
def isToday (today : String) (dateString : String) : Bool :=
  today == dateOf dateString

/-- The joined lowercase search text of a site: site name, url, tags and
every credential's email and label, joined by single spaces. -/
def siteSearchText (site : Site) : String :=
  strToLower (String.intercalate " "
    ([site.name, site.url] ++ site.tags.getD []
      ++ site.credentials.map (fun c => c.email ++ " " ++ c.label)))

/-- getFilteredSites(): applies the search filter, then the status filter,
then the category filter, then the tag filter, in the order written in the
source.  today is the current calendar date string; sites0 is this.getSites().
The status filter keeps a site under status done exactly when SOME credential
was checked in today (hasCheckedIn uses Array.prototype.some), and under any
other non-all status exactly when no credential was. -/
def getFilteredSites (today : String) (fl : Filters) (sites0 : List Site) :
    List Site :=
  let sites1 :=
    if !(fl.search == "") then
      let query := strToLower fl.search
      sites0.filter (fun site => strIncludes (siteSearchText site) query)
    else sites0
  let sites2 :=
    if !(fl.status == "all") then
      sites1.filter (fun site =>
        let hasCheckedIn := site.credentials.any (fun c =>
          jsTruthyStr c.checkedInOn && isToday today (c.checkedInOn.getD ""))
        if fl.status == "done" then hasCheckedIn else !hasCheckedIn)
    else sites1
  let sites3 :=
    match fl.category with
    | some q =>
      if !(q == "") then sites2.filter (fun site => site.category == some q)
      else sites2
    | none => sites2
  let sites4 :=
    if fl.tags.length > 0 then
      sites3.filter (fun site =>
        fl.tags.any (fun t => (site.tags.getD []).contains t))
    else sites3
  sites4

end StateManager

/-! ### Spec-side definitions of the filter pipeline

These follow the specification's words, as the claim about getFilteredSites is
a refinement claim: the pipeline is the composition search, then status, then
category, then tag.  Two variants of the status classification are given: the
claim's variant (done = every credential checked in today) and the corrected
variant (done = at least one credential checked in today). -/

/-- Spec full-text search: case-insensitive substring match over the site
name, URL, tags and every credential's email/label. -/
def specSearchFilter (query : String) (sites : List Site) : List Site :=
  if !(query == "") then
    sites.filter (fun site =>
      strIncludes (StateManager.siteSearchText site) (strToLower query))
  else sites

/-- A credential counts as checked in today when its checkedInOn is set and
its calendar date equals today's. -/
def credCheckedToday (today : String) (c : Credential) : Bool :=
  jsTruthyStr c.checkedInOn && StateManager.isToday today (c.checkedInOn.getD "")

/-- Spec status filter, claim variant: done = EVERY credential checked in
today; pending = not done. -/
def specStatusFilterEvery (today status : String) (sites : List Site) :
    List Site :=
  if !(status == "all") then
    sites.filter (fun site =>
      let done := site.credentials.all (credCheckedToday today)
      if status == "done" then done else !done)
  else sites

/-- Spec status filter, corrected variant: done = AT LEAST ONE credential
checked in today; pending = not done. -/
def specStatusFilterSome (today status : String) (sites : List Site) :
    List Site :=
  if !(status == "all") then
    sites.filter (fun site =>
      let done := site.credentials.any (credCheckedToday today)
      if status == "done" then done else !done)
  else sites

/-- Spec category filter: exact match on the site's category. -/
def specCategoryFilter (category : Option String) (sites : List Site) :
    List Site :=
  match category with
  | some q => if !(q == "") then sites.filter (fun s => s.category == some q)
              else sites
  | none => sites

/-- Spec tag filter: any-of match between the filter tags and the site tags. -/
def specTagFilter (tags : List String) (sites : List Site) : List Site :=
  if tags.length > 0 then
    sites.filter (fun s => tags.any (fun t => (s.tags.getD []).contains t))
  else sites

/-- The claim's pipeline as stated: search, then status with the
every-credential reading of done, then category, then tag. -/
def specFilteredSitesEvery (today : String) (fl : StateManager.Filters)
    (sites : List Site) : List Site :=
  specTagFilter fl.tags
    (specCategoryFilter fl.category
      (specStatusFilterEvery today fl.status
        (specSearchFilter fl.search sites)))

/-- The corrected pipeline: search, then status with the at-least-one reading
of done, then category, then tag. -/
def specFilteredSitesSome (today : String) (fl : StateManager.Filters)
    (sites : List Site) : List Site :=
  specTagFilter fl.tags
    (specCategoryFilter fl.category
      (specStatusFilterSome today fl.status
        (specSearchFilter fl.search sites)))

/-! ## Export (StorageService.exportData / convertToCSV) -/

namespace StorageService

/-- The export object built by exportData: the spread of the current state
with its version field overwritten by CONFIG.app.version and an exportedAt
timestamp added. -/
structure ExportDoc where
  base : DashState
  exportedAt : String
deriving Repr, DecidableEq

/-- Strips checkInHistory from every credential of every site (the
includeHistory = false branch of exportData). -/
def stripHistory (sites : List Site) : List Site :=
  sites.map (fun site =>
    { site with credentials :=
        site.credentials.map (fun cr => { cr with checkInHistory := some [] }) })

/-- One CSV cell wrapped in double quotes. -/
def csvCell (cell : String) : String :=
  "\"" ++ cell ++ "\""

/-- convertToCSV(data): a header row followed by one row per (site,
credential) pair, each cell double-quoted, cells joined by commas and rows by
newlines.  Tags are joined by semicolons and a missing category becomes the
empty string. -/
def convertToCSV (sites : List Site) : String :=
  let header := ["Site Name", "URL", "Category", "Email", "Label", "Tags"]
  let rows := header :: sites.flatMap (fun site =>
    site.credentials.map (fun cred =>
      [site.name, site.url, jsOrStr site.category "", cred.email, cred.label,
       String.intercalate ";" (site.tags.getD [])]))
  String.intercalate "\n" (rows.map (fun row =>
    String.intercalate "," (row.map csvCell)))

/-- The value returned by exportData, tagged by which return path produced
it.  The encJson constructor models JSON.stringify(await
cryptoService.encrypt(data, password), null, 2) — the serialized document
passed through the Crypto Envelope with the given password; json models the
plain pretty-printed JSON of the document; csvText carries the computed CSV
text. -/
inductive ExportOutput where
  | encJson (payload : ExportDoc) (password : String)
  | json (payload : ExportDoc)
  | csvText (text : String)
deriving Repr, DecidableEq

/-- The export object built at the top of exportData: the spread of the
current state with version overwritten by CONFIG.app.version, an exportedAt
timestamp, and the history stripped when includeHistory is false. -/
def exportDocOf (c : Clock) (st : DashState) (includeHistory : Bool) :
    ExportDoc :=
  let base0 := { st with version := some CONFIG_app_version }
  let base1 :=
    if !includeHistory then { base0 with sites := stripHistory base0.sites }
    else base0
  { base := base1, exportedAt := c.now }

/-- exportData(format, includeHistory, encrypt, password): builds the export
object (optionally history-stripped), then returns along the first matching
branch: encrypt AND a truthy password → encrypted JSON; format json → plain
JSON; format csv → CSV text; anything else → null. -/
def exportData (c : Clock) (st : DashState) (format : String)
    (includeHistory : Bool) (encrypt : Bool) (password : Option String) :
    Option ExportOutput :=
  let data : ExportDoc := exportDocOf c st includeHistory
  if encrypt && jsTruthyStr password then
    some (ExportOutput.encJson data (password.getD ""))
  else if format == "json" then
    some (ExportOutput.json data)
  else if format == "csv" then
    some (ExportOutput.csvText (convertToCSV data.base.sites))
  else none

end StorageService

/-! ## MigrationService (src/core/migrations.js) -/

namespace MigrationService

/-- Splits a character list on a separator, keeping empty segments, modelling
String.prototype.split. -/
def splitCh (sep : Char) : List Char → List (List Char)
  | [] => [[]]
  | c :: cs =>
    let r := splitCh sep cs
    if c == sep then [] :: r
    else
      match r with
      | [] => [[c]]
      | g :: gs => (c :: g) :: gs

/-- Models Number(component) || 0 for one dot-separated version component: a
(possibly empty) digit string parses to its value, everything else (NaN) to
0. -/
def jsNum (cs : List Char) : Nat :=
  if cs.all (fun c => c.isDigit) then
    cs.foldl (fun a c => a * 10 + (c.toNat - 48)) 0
  else 0

/-- The tail of the compareVersions loop once the first version has run out
of components: the first version is padded with zeros against the remaining
components of the second. -/
def cmpZeros : List Nat → Int
  | [] => 0
  | y :: ys => if 0 < y then -1 else cmpZeros ys

/-- The inner comparison loop of compareVersions over the already-parsed
numeric components, padding the shorter list with zeros: -1, 0 or 1. -/
def cmpParts : List Nat → List Nat → Int
  | [], ys => cmpZeros ys
  | x :: xs, [] => if x > 0 then 1 else cmpParts xs []
  | x :: xs, y :: ys =>
    if x < y then -1 else if x > y then 1 else cmpParts xs ys

/-- compareVersions(v1, v2): splits on dots, parses each component as a
number, and compares component-wise with zero padding. -/
def compareVersions (v1 v2 : String) : Int :=
  cmpParts ((splitCh '.' v1.data).map jsNum) ((splitCh '.' v2.data).map jsNum)

/-- Notification settings sub-object (used whole as a default). -/
structure MigNotif where
  enabled : Bool
  reminderTime : String
  staleDays : Nat
deriving Repr, DecidableEq

/-- Security settings sub-object (used whole as a default). -/
structure MigSec where
  masterPasswordEnabled : Bool
  autoLockMinutes : Nat
  clipboardClearSeconds : Nat
  requireAuthOnStart : Bool
deriving Repr, DecidableEq

/-- Display settings sub-object (used whole as a default). -/
structure MigDisp where
  density : String
  cardsPerRow : String
  showFavicons : Bool
  showLastCheckin : Bool
deriving Repr, DecidableEq

/-- The settings object as the migrator sees it: every field may be absent. -/
structure MigSettings where
  theme : Option String
  viewMode : Option String
  autoReset : Option Bool
  resetTime : Option String
  notifications : Option MigNotif
  security : Option MigSec
  display : Option MigDisp
deriving Repr, DecidableEq

/-- The per-credential metadata filled in by migrateTo2_0_0. -/
structure MigCredential where
  id : String
  label : String
  email : String
  password : String
  checkedInOn : Option String
  customFields : Option (List String)
  checkInHistory : Option (List HistoryEntry)
  lastPasswordChange : Option String
  passwordExpiry : Option String
  strength : Option String
  breached : Option Bool
deriving Repr, DecidableEq

/-- The per-site metadata object filled in by migrateTo2_0_0. -/
structure MigMeta where
  loginFrequency : String
  importance : String
  lastIssue : Option String
  averageCheckInTime : String
deriving Repr, DecidableEq

/-- A site as the migrator sees it: most enrichment fields may be absent. -/
structure MigSite where
  id : String
  name : String
  url : String
  favicon : Option String
  priority : Option Nat
  color : Option String
  metadata : Option MigMeta
  credentials : Option (List MigCredential)
  createdAt : Option String
  updatedAt : Option String
deriving Repr, DecidableEq

/-- The analytics object as the migrator sees it (whole-object default). -/
structure MigAnalytics where
  totalCheckIns : Nat
  currentStreak : Nat
  longestStreak : Nat
  averageDaily : Nat
  sitesAdded : Nat
  sitesArchived : Nat
  lastCheckIn : Option String
deriving Repr, DecidableEq

/-- An input document to the migrator: every top-level field may be absent. -/
structure MigDoc where
  version : Option String
  lastReset : Option String
  settings : Option MigSettings
  categories : Option (List Category)
  sites : Option (List MigSite)
  analytics : Option MigAnalytics
deriving Repr, DecidableEq

/-- The browser-environment inputs of the migration pipeline: today's date
(new Date().toISOString().split('T')[0]) and the origin extractor behind
getFaviconFromUrl, modelling new URL(url).origin (none = URL parse failure). -/
structure MigEnv where
  today : String
  originOf : String → Option String

/-- getFaviconFromUrl(url): origin of the url plus /favicon.ico, or null when
the URL does not parse. -/
def getFaviconFromUrl (env : MigEnv) (url : String) : Option String :=
  match env.originOf url with
  | some origin => some (origin ++ "/favicon.ico")
  | none => none

/-- The empty settings object (JS literal with no fields). -/
def emptySettings : MigSettings :=
  { theme := none, viewMode := none, autoReset := none, resetTime := none,
    notifications := none, security := none, display := none }

/-- migrateTo1_0_0(data): rebuilds the document from scratch, keeping only
settings, categories and sites (with defaults) and zeroing analytics;
lastReset is stamped with today's date.  Note the rebuilt analytics carries no
lastCheckIn field. -/
def migrateTo1_0_0 (env : MigEnv) (data : MigDoc) : MigDoc :=
  { version := some "1.0.0"
    lastReset := some env.today
    settings := some (data.settings.getD emptySettings)
    categories := some (data.categories.getD [])
    sites := some (data.sites.getD [])
    analytics := some
      { totalCheckIns := 0, currentStreak := 0, longestStreak := 0,
        averageDaily := 0,
        sitesAdded := (data.sites.map List.length).getD 0,
        sitesArchived := 0, lastCheckIn := none } }

/-- The credential enrichment performed inside migrateTo2_0_0. -/
def migCred (siteCreatedAt : Option String) (cred : MigCredential) :
    MigCredential :=
  { cred with
      customFields := some (cred.customFields.getD [])
      checkInHistory := some (cred.checkInHistory.getD [])
      lastPasswordChange :=
        if jsTruthyStr cred.lastPasswordChange then cred.lastPasswordChange
        else siteCreatedAt
      passwordExpiry :=
        if jsTruthyStr cred.passwordExpiry then cred.passwordExpiry else none
      strength := some (jsOrStr cred.strength "unknown")
      breached := some (cred.breached.getD false) }

/-- The site enrichment performed inside migrateTo2_0_0. -/
def migSite (env : MigEnv) (site : MigSite) : MigSite :=
  { site with
      favicon :=
        if jsTruthyStr site.favicon then site.favicon
        else getFaviconFromUrl env site.url
      priority := some (site.priority.getD 0)
      color := some (jsOrStr site.color "#3b82f6")
      metadata := some (site.metadata.getD
        { loginFrequency := "daily", importance := "normal",
          lastIssue := none, averageCheckInTime := "09:00" })
      credentials := some
        ((site.credentials.getD []).map (migCred site.createdAt)) }

/-- migrateTo2_0_0(data): normalizes the settings object field by field,
enriches every site and credential with the 2.0.0 metadata defaults, and
creates a zeroed analytics object only when none exists. -/
def migrateTo2_0_0 (env : MigEnv) (data : MigDoc) : MigDoc :=
  let s := data.settings.getD emptySettings
  let settings1 : MigSettings :=
    { theme := some (jsOrStr s.theme "auto")
      viewMode := some (jsOrStr s.viewMode "grid")
      autoReset := some (!(s.autoReset == some false))
      resetTime := some (jsOrStr s.resetTime "00:00")
      notifications := some (s.notifications.getD
        { enabled := true, reminderTime := "09:00", staleDays := 7 })
      security := some (s.security.getD
        { masterPasswordEnabled := false, autoLockMinutes := 15,
          clipboardClearSeconds := 30, requireAuthOnStart := false })
      display := some (s.display.getD
        { density := "comfortable", cardsPerRow := "auto",
          showFavicons := true, showLastCheckin := true }) }
  let sites1 :=
    match data.sites with
    | some ss => some (ss.map (migSite env))
    | none => data.sites
  let analytics1 :=
    match data.analytics with
    | some a => some a
    | none => some
        { totalCheckIns := 0, currentStreak := 0, longestStreak := 0,
          averageDaily := 0,
          sitesAdded := (sites1.map List.length).getD 0,
          sitesArchived := 0, lastCheckIn := none }
  { data with settings := some settings1, sites := sites1,
              analytics := analytics1 }

/-- migrate(data): null in, null out; otherwise runs each registered
migration (1.0.0 then 2.0.0) whenever the ORIGINAL document version (0.0.0
when absent or falsy) is strictly below the migration's target version,
stamping the document version with the target after each applied step. -/
def migrate (env : MigEnv) (data : Option MigDoc) : Option MigDoc :=
  match data with
  | none => none
  | some d =>
    let dataVersion := jsOrStr d.version "0.0.0"
    let m1 :=
      if compareVersions dataVersion "1.0.0" < 0 then
        { migrateTo1_0_0 env d with version := some "1.0.0" }
      else d
    let m2 :=
      if compareVersions dataVersion "2.0.0" < 0 then
        { migrateTo2_0_0 env m1 with version := some "2.0.0" }
      else m1
    some m2

end MigrationService

/-! ## CryptoService (src/core/crypto.js)

The Web Crypto primitives (PBKDF2 key derivation, AES-GCM encrypt/decrypt),
the JSON/UTF-8 serialization pair and the btoa/atob base64 pair are browser
builtins external to the repository; they are abstracted as the fields of a
CryptoPrims bundle, and the round-trip claim carries their standard
correctness properties as hypotheses.  What is embedded from the source is the
envelope construction itself: which parameters are generated, stored, and fed
back into which primitive. -/

namespace CryptoService

/-- The external primitives used by CryptoService, over payload type α.
stringifyBytes models TextEncoder().encode(JSON.stringify(d));
parseBytes models JSON.parse(TextDecoder().decode(bytes)) with none for a
parse error; deriveKeyBits models the PBKDF2-SHA256 derivation of deriveKey
(deterministic in password and salt, iteration count fixed by CONFIG);
aesEncrypt/aesDecrypt model AES-GCM with none for an authentication failure;
b64enc/b64dec model arrayBufferToBase64 and base64ToArrayBuffer. -/
structure CryptoPrims (α : Type) where
  stringifyBytes : α → List Nat
  parseBytes : List Nat → Option α
  deriveKeyBits : String → List Nat → List Nat
  aesEncrypt : List Nat → List Nat → List Nat → List Nat
  aesDecrypt : List Nat → List Nat → List Nat → Option (List Nat)
  b64enc : List Nat → String
  b64dec : String → List Nat

/-- The self-describing encrypted envelope returned by encrypt: base64 salt,
iv and ciphertext plus the algorithm name and iteration count. -/
structure Envelope where
  salt : String
  iv : String
  data : String
  algorithm : String
  iterations : Nat
deriving Repr, DecidableEq

/-- CONFIG.security.keyDerivationIterations. -/
def CONFIG_iterations : Nat := 100000

/-- encrypt(data, password): serializes the payload, derives the key from the
password and the fresh salt, AES-GCM-encrypts under the fresh iv, and packs
salt, iv and ciphertext (base64) with the algorithm parameters.  The fresh
random salt and iv produced by generateSalt/generateIV are passed in
explicitly. -/
def encrypt (P : CryptoPrims α) (salt iv : List Nat) (d : α)
    (password : String) : Envelope :=
  let dataBuffer := P.stringifyBytes d
  let key := P.deriveKeyBits password salt
  let encryptedData := P.aesEncrypt key iv dataBuffer
  { salt := P.b64enc salt
    iv := P.b64enc iv
    data := P.b64enc encryptedData
    algorithm := "AES-GCM"
    iterations := CONFIG_iterations }

/-- decrypt(encryptedObject, password): unpacks salt, iv and ciphertext from
the envelope, re-derives the key from the password and the embedded salt,
authenticates and decrypts, and parses the plaintext back into a payload.
none models the thrown decryption/parse error. -/
def decrypt (P : CryptoPrims α) (env : Envelope) (password : String) :
    Option α :=
  let salt := P.b64dec env.salt
  let iv := P.b64dec env.iv
  let encryptedData := P.b64dec env.data
  let key := P.deriveKeyBits password salt
  match P.aesDecrypt key iv encryptedData with
  | none => none
  | some plain => P.parseBytes plain

end CryptoService

/-! ### A concrete byte-list-to-string codec

Used to instantiate the abstract base64 pair with something whose round-trip
is provable, so that the round-trip theorem can be exercised on a fully
concrete input: each number n becomes n letters a followed by one letter b. -/

/-- Unary character encoding of a byte list. -/
def unaryEncCh : List Nat → List Char
  | [] => []
  | n :: rest => List.replicate n 'a' ++ 'b' :: unaryEncCh rest

/-- Decoder for unaryEncCh; acc counts the letters a seen since the last b. -/
def unaryDecCh : List Char → Nat → List Nat
  | [], _ => []
  | c :: cs, acc => if c == 'b' then acc :: unaryDecCh cs 0
                    else unaryDecCh cs (acc + 1)

/-- String form of the unary encoder. -/
def unaryEnc (bs : List Nat) : String :=
  String.mk (unaryEncCh bs)

/-- String form of the unary decoder. -/
def unaryDec (s : String) : List Nat :=
  unaryDecCh s.data 0

theorem unaryDecCh_replicate (n : Nat) (cs : List Char) (acc : Nat) :
    unaryDecCh (List.replicate n 'a' ++ cs) acc = unaryDecCh cs (acc + n) := by
  induction n generalizing acc with
  | zero => simp [List.replicate]
  | succ k ih =>
    simp only [List.replicate, List.cons_append, unaryDecCh, List.append_eq]
    rw [if_neg (by decide)]
    rw [ih]
    congr 1
    omega

theorem unaryDecCh_enc (bs : List Nat) :
    unaryDecCh (unaryEncCh bs) 0 = bs := by
  induction bs with
  | nil => rfl
  | cons n rest ih =>
    simp only [unaryEncCh, unaryDecCh_replicate, unaryDecCh]
    simp [ih]

/-- The unary codec round-trips on every byte list. -/
theorem unary_roundtrip (bs : List Nat) : unaryDec (unaryEnc bs) = bs := by
  simpa [unaryDec, unaryEnc] using unaryDecCh_enc bs

/-! ## Shared lemmas -/

theorem find?_replaceFirst {p : α → Bool} {f : α → α} {l : List α} {x : α}
    (h : l.find? p = some x) (hf : p (f x) = true) :
    (replaceFirst p f l).find? p = some (f x) := by
  induction l with
  | nil => simp at h
  | cons a as ih =>
    by_cases hpa : p a = true
    · rw [List.find?_cons_of_pos _ hpa] at h
      injection h with h
      subst h
      simp [replaceFirst, hpa, List.find?_cons_of_pos _ hf]
    · have hpa' : p a = false := by
        cases hq : p a
        · rfl
        · exact absurd hq hpa
      rw [List.find?_cons_of_neg _ (by simp [hpa'])] at h
      simp only [replaceFirst, hpa', Bool.false_eq_true, if_false]
      rw [List.find?_cons_of_neg _ (by simp [hpa'])]
      exact ih h

theorem take_append_take (n : Nat) (l m : List α) :
    (l ++ m.take n).take n = (l ++ m).take n := by
  rw [List.take_append_eq_append_take, List.take_append_eq_append_take,
      List.take_take]
  congr 1
  exact congrArg (fun k => m.take k) (Nat.min_eq_left (Nat.sub_le n l.length))

/-! ## Shared concrete fixtures -/

/-- A concrete clock instant on 2025-06-02. -/
def sampleClock : Clock :=
  { now := "2025-06-02T10:00:00.000Z", yesterday := "2025-06-01",
    device := "Chrome/126.0 on Linux" }

/-- A concrete settings object with autoReset on. -/
def sampleSettings : Settings :=
  { theme := "auto", viewMode := "grid", autoReset := true,
    resetTime := "00:00" }

/-- All-zero analytics (the bootstrap values). -/
def zeroAnalytics : Analytics :=
  { totalCheckIns := 0, currentStreak := 0, longestStreak := 0,
    averageDaily := 0, sitesAdded := 0, sitesArchived := 0,
    lastCheckIn := none }

/-- A concrete credential that has never been checked in. -/
def sampleCred : Credential :=
  { id := "c1", label := "main", email := "user@example.com",
    password := "hunter2", checkedInOn := none, checkInHistory := some [] }

/-- A concrete site holding sampleCred. -/
def sampleSite : Site :=
  { id := "s1", name := "Example", url := "https://example.com",
    category := some "work", tags := some ["mail"],
    credentials := [sampleCred],
    createdAt := some "2025-01-01T00:00:00.000Z",
    updatedAt := some "2025-01-01T00:00:00.000Z" }

/-- A concrete document with no sites. -/
def emptyState : DashState :=
  { version := some "2.1.0", lastReset := "2025-06-01",
    settings := sampleSettings, categories := [], sites := [],
    analytics := zeroAnalytics }

/-- A concrete document whose only site has no credentials. -/
def noCredState : DashState :=
  { emptyState with sites := [{ sampleSite with credentials := [] }] }

/-- The document of the specification's streak scenario: currentStreak 3,
longestStreak 5, lastCheckIn dated the previous calendar day (2025-06-01),
about to be checked in on 2025-06-02. -/
def streakState : DashState :=
  { version := some "2.1.0", lastReset := "2025-06-02",
    settings := sampleSettings, categories := [], sites := [sampleSite],
    analytics :=
      { totalCheckIns := 10, currentStreak := 3, longestStreak := 5,
        averageDaily := 0, sitesAdded := 1, sitesArchived := 0,
        lastCheckIn := some "2025-06-01T09:00:00.000Z" } }

/-! ## C1 — streak algorithm of checkInCredential -/

/-- C1 (code_bug evidence): in the specification's scenario — a document with
currentStreak 3, longestStreak 5 and a prior lastCheckIn dated yesterday — a
successful check-in on 2025-06-02 leaves currentStreak at 3, not the 4 the
claimed streak algorithm requires.  The cause: checkInCredential overwrites
analytics.lastCheckIn with the current timestamp BEFORE calling updateStreak,
so updateStreak always sees a lastCheckIn dated today and every one of its
streak branches is dead; the prior-day case analysis the claim describes is
never applied to the prior value. -/
theorem checkIn_streak_scenario :
    (StorageService.checkInCredential sampleClock "s1" "c1" streakState).1
      = true
    ∧ (StorageService.checkInCredential sampleClock "s1" "c1"
        streakState).2.analytics.currentStreak = 3
    ∧ (StorageService.checkInCredential sampleClock "s1" "c1"
        streakState).2.analytics.longestStreak = 5
    ∧ (StorageService.checkInCredential sampleClock "s1" "c1"
        streakState).2.analytics.currentStreak ≠ 4 := by
  refine ⟨by decide, by decide, by decide, by decide⟩

/-! ## C9 — not-found soft failure -/

/-- C9: for every clock, document and (siteId, credentialId), if no site has
the given id, or the site exists but none of its credentials has the given
id, then checkInCredential returns false and the document is returned
unchanged (total function, no mutation of sites, analytics or history). -/
theorem checkIn_notFound (c : Clock) (siteId credId : String)
    (st : DashState) :
    (st.sites.find? (fun s => s.id == siteId) = none →
      StorageService.checkInCredential c siteId credId st = (false, st))
    ∧ ∀ site, st.sites.find? (fun s => s.id == siteId) = some site →
        site.credentials.find? (fun cr => cr.id == credId) = none →
        StorageService.checkInCredential c siteId credId st = (false, st) := by
  constructor
  · intro h
    simp [StorageService.checkInCredential, h]
  · intro site hs hc
    simp [StorageService.checkInCredential, hs, hc]

/-- C9 witness: a missing site and a missing credential, concretely. -/
theorem checkIn_notFound_witness :
    StorageService.checkInCredential sampleClock "s1" "c1" emptyState
      = (false, emptyState)
    ∧ StorageService.checkInCredential sampleClock "s1" "c1" noCredState
      = (false, noCredState) :=
  ⟨(checkIn_notFound sampleClock "s1" "c1" emptyState).1 (by decide),
   (checkIn_notFound sampleClock "s1" "c1" noCredState).2
     { sampleSite with credentials := [] } (by decide) (by decide)⟩

/-! ## C5 — daily-reset correctness -/

/-- C5: when autoReset is on and lastReset differs from today's date,
checkDailyReset clears every credential's checkedInOn across all sites and
stamps lastReset with today; when autoReset is off or lastReset already
equals today, the document is returned unchanged. -/
theorem checkDailyReset_correct (c : Clock) (st : DashState) :
    (st.settings.autoReset = true → ¬(st.lastReset = dateOf c.now) →
      (∀ site ∈ (StorageService.checkDailyReset c st).sites,
        ∀ cr ∈ site.credentials, cr.checkedInOn = none)
      ∧ (StorageService.checkDailyReset c st).lastReset = dateOf c.now)
    ∧ (st.settings.autoReset = false ∨ st.lastReset = dateOf c.now →
        StorageService.checkDailyReset c st = st) := by
  constructor
  · intro hauto hne
    have hb : (st.lastReset == dateOf c.now) = false :=
      beq_eq_false_iff_ne.mpr hne
    have hres : StorageService.checkDailyReset c st
        = StorageService.resetAllCredentials c st := by
      simp [StorageService.checkDailyReset, hauto, hb]
    rw [hres]
    constructor
    · intro site hsite cr hcr
      simp only [StorageService.resetAllCredentials, List.mem_map] at hsite
      obtain ⟨s0, _, rfl⟩ := hsite
      simp only [List.mem_map] at hcr
      obtain ⟨c0, _, rfl⟩ := hcr
      rfl
    · rfl
  · rintro (h | h)
    · simp [StorageService.checkDailyReset, h]
    · by_cases ha : st.settings.autoReset <;>
        simp [StorageService.checkDailyReset, ha, h]

/-- A clock on 2025-01-02, for the daily-reset scenario. -/
def resetClock : Clock :=
  { now := "2025-01-02T08:00:00.000Z", yesterday := "2025-01-01",
    device := "Chrome/126.0 on Linux" }

/-- A document last reset on 2025-01-01 with one checked-in credential. -/
def staleState : DashState :=
  { version := some "2.1.0", lastReset := "2025-01-01",
    settings := sampleSettings, categories := [],
    sites := [{ sampleSite with credentials :=
      [{ sampleCred with checkedInOn := some "2025-01-01T09:00:00.000Z" }] }],
    analytics := zeroAnalytics }

/-- A document already reset today. -/
def freshState : DashState :=
  { staleState with lastReset := "2025-01-02" }

/-- C5 witness: the spec scenario (lastReset 2025-01-01, today 2025-01-02,
autoReset true) clears every credential and stamps lastReset; a document
whose lastReset is already today is unchanged. -/
theorem checkDailyReset_correct_witness :
    ((∀ site ∈ (StorageService.checkDailyReset resetClock staleState).sites,
        ∀ cr ∈ site.credentials, cr.checkedInOn = none)
      ∧ (StorageService.checkDailyReset resetClock staleState).lastReset
          = dateOf resetClock.now)
    ∧ StorageService.checkDailyReset resetClock freshState = freshState :=
  ⟨(checkDailyReset_correct resetClock staleState).1 (by decide) (by decide),
   (checkDailyReset_correct resetClock freshState).2 (Or.inr (by decide))⟩

/-! ## C10 — addSite spread order -/

/-- C10: addSite appends the object built by spreading the generated id and
timestamps first and the caller's siteData after, so caller-supplied id,
createdAt or updatedAt fields override the generated ones; consequently when
the supplied id already names an existing site, the stored list ends up with
two sites carrying that id. -/
theorem addSite_spread (c : Clock) (genId : String)
    (d : StorageService.SiteData) (st : DashState) :
    (StorageService.addSite c genId d st).2.sites
      = st.sites ++ [StorageService.mkNewSite genId c.now d]
    ∧ (∀ i, d.id = some i →
        (StorageService.mkNewSite genId c.now d).id = i)
    ∧ (∀ t, d.createdAt = some t →
        (StorageService.mkNewSite genId c.now d).createdAt = some t)
    ∧ (∀ t, d.updatedAt = some t →
        (StorageService.mkNewSite genId c.now d).updatedAt = some t)
    ∧ ∀ i, d.id = some i → 0 < st.sites.countP (fun s => s.id == i) →
        2 ≤ (StorageService.addSite c genId d st).2.sites.countP
              (fun s => s.id == i) := by
  refine ⟨rfl, ?_, ?_, ?_, ?_⟩
  · intro i h
    simp [StorageService.mkNewSite, h]
  · intro t h
    simp [StorageService.mkNewSite, h]
  · intro t h
    simp [StorageService.mkNewSite, h]
  · intro i h hpos
    have hsites : (StorageService.addSite c genId d st).2.sites
        = st.sites ++ [StorageService.mkNewSite genId c.now d] := rfl
    have hid : (StorageService.mkNewSite genId c.now d).id = i := by
      simp [StorageService.mkNewSite, h]
    rw [hsites, List.countP_append]
    simp only [List.countP_cons, List.countP_nil, hid, beq_self_eq_true, if_true]
    omega

/-- Caller data that carries its own id (clashing with sampleSite) and its
own timestamps. -/
def dupSiteData : StorageService.SiteData :=
  { id := some "s1", createdAt := some "2020-01-01T00:00:00.000Z",
    updatedAt := some "2020-01-02T00:00:00.000Z", name := "Duplicate",
    url := "https://dup.example", category := none, tags := none,
    credentials := [] }

/-- A document already holding a site with id s1. -/
def dupBaseState : DashState :=
  { emptyState with sites := [sampleSite] }

/-- C10 witness: adding dupSiteData keeps the caller-supplied id s1 and both
timestamps, and leaves two sites with id s1 in the stored list. -/
theorem addSite_spread_witness :
    (StorageService.mkNewSite "gen-1" sampleClock.now dupSiteData).id = "s1"
    ∧ (StorageService.mkNewSite "gen-1" sampleClock.now dupSiteData).createdAt
        = some "2020-01-01T00:00:00.000Z"
    ∧ (StorageService.mkNewSite "gen-1" sampleClock.now dupSiteData).updatedAt
        = some "2020-01-02T00:00:00.000Z"
    ∧ 2 ≤ (StorageService.addSite sampleClock "gen-1" dupSiteData
            dupBaseState).2.sites.countP (fun s => s.id == "s1") :=
  ⟨(addSite_spread sampleClock "gen-1" dupSiteData dupBaseState).2.1 "s1" rfl,
   (addSite_spread sampleClock "gen-1" dupSiteData dupBaseState).2.2.1 _ rfl,
   (addSite_spread sampleClock "gen-1" dupSiteData
     dupBaseState).2.2.2.1 _ rfl,
   (addSite_spread sampleClock "gen-1" dupSiteData
     dupBaseState).2.2.2.2 "s1" rfl (by decide)⟩

/-! ## C7 — export encryption -/

/-- C7 counterexample: with format csv, encrypt true and a password supplied,
exportData returns the encrypted JSON envelope, not CSV text — the encrypt
branch precedes and overrides the format dispatch; and with encrypt true but
no password, the encrypt flag is ignored and plain JSON is returned.  Both
refute the claim that the csv output is plain regardless of the encrypt and
password arguments and that encrypt alone forces encryption. -/
theorem exportData_encrypt_ce :
    StorageService.exportData sampleClock streakState "csv" true true
        (some "pw")
      = some (StorageService.ExportOutput.encJson
          (StorageService.exportDocOf sampleClock streakState true) "pw")
    ∧ (∀ t, StorageService.exportData sampleClock streakState "csv" true true
        (some "pw") ≠ some (StorageService.ExportOutput.csvText t))
    ∧ StorageService.exportData sampleClock streakState "json" true true none
      = some (StorageService.ExportOutput.json
          (StorageService.exportDocOf sampleClock streakState true)) := by
  refine ⟨rfl, ?_, rfl⟩
  intro t h
  rw [show StorageService.exportData sampleClock streakState "csv" true true
        (some "pw")
      = some (StorageService.ExportOutput.encJson
          (StorageService.exportDocOf sampleClock streakState true) "pw")
      from rfl] at h
  simp at h

/-- C7 amended: when encrypt is true AND a non-empty password is supplied,
the export document is passed through the Crypto Envelope and returned as
encrypted JSON whatever the format argument; a csv-format call returns the
plain (never encrypted) CSV text exactly when encrypt is false or no usable
password is supplied. -/
theorem exportData_branches (c : Clock) (st : DashState) (format : String)
    (includeHistory encrypt : Bool) (password : Option String) :
    (∀ p, encrypt = true → password = some p → ¬(p = "") →
      StorageService.exportData c st format includeHistory encrypt password
        = some (StorageService.ExportOutput.encJson
            (StorageService.exportDocOf c st includeHistory) p))
    ∧ (encrypt = false ∨ password = none ∨ password = some "" →
        StorageService.exportData c st "csv" includeHistory encrypt password
          = some (StorageService.ExportOutput.csvText
              (StorageService.convertToCSV
                (StorageService.exportDocOf c st includeHistory).base.sites)))
    := by
  constructor
  · intro p henc hpw hne
    subst henc
    subst hpw
    have hp : (p == "") = false := beq_eq_false_iff_ne.mpr hne
    simp [StorageService.exportData, jsTruthyStr, hp]
  · rintro (rfl | rfl | rfl)
    · rfl
    · cases encrypt <;> rfl
    · cases encrypt <;> rfl

/-- C7 witness: a json-format call with encrypt and password encrypts, and a
csv-format call without encrypt yields the plain CSV text. -/
theorem exportData_branches_witness :
    StorageService.exportData sampleClock emptyState "json" true true
        (some "pw")
      = some (StorageService.ExportOutput.encJson
          (StorageService.exportDocOf sampleClock emptyState true) "pw")
    ∧ StorageService.exportData sampleClock emptyState "csv" true false none
      = some (StorageService.ExportOutput.csvText
          (StorageService.convertToCSV
            (StorageService.exportDocOf sampleClock emptyState true).base.sites)) :=
  ⟨(exportData_branches sampleClock emptyState "json" true true
      (some "pw")).1 "pw" rfl rfl (by decide),
   (exportData_branches sampleClock emptyState "json" true false none).2
     (Or.inl rfl)⟩

/-! ## C3 — filter pipeline of getFilteredSites -/

/-- A credential checked in today (2025-06-02). -/
def mixedCredA : Credential :=
  { sampleCred with
      id := "u1"
      checkedInOn := some "2025-06-02T08:00:00.000Z" }

/-- A credential not checked in. -/
def mixedCredB : Credential :=
  { sampleCred with id := "u2", checkedInOn := none }

/-- A site with one checked and one unchecked credential. -/
def mixedSite : Site :=
  { sampleSite with credentials := [mixedCredA, mixedCredB] }

/-- The filter state selecting status done only. -/
def doneFilters : StateManager.Filters :=
  { search := "", status := "done", category := none, tags := [] }

/-- C3 counterexample: a site with one credential checked in today and one
not.  getFilteredSites keeps it under status done (its classification uses
SOME credential checked today), while the claim's every-credential
classification would discard it. -/
theorem getFilteredSites_every_ce :
    StateManager.getFilteredSites "2025-06-02" doneFilters [mixedSite]
      = [mixedSite]
    ∧ specFilteredSitesEvery "2025-06-02" doneFilters [mixedSite] = []
    ∧ StateManager.getFilteredSites "2025-06-02" doneFilters [mixedSite]
      ≠ specFilteredSitesEvery "2025-06-02" doneFilters [mixedSite] := by
  refine ⟨by decide, by decide, by decide⟩

/-- C3 amended: getFilteredSites applies, in order, the full-text search
(case-insensitive substring over the joined site name, URL, tags and every
credential's email/label), then the status filter where done means AT LEAST
ONE credential checked in today (calendar-date comparison) and pending means
none, then the exact-match category filter, then the any-of tag filter. -/
theorem getFilteredSites_pipeline (today : String)
    (fl : StateManager.Filters) (sites : List Site) :
    StateManager.getFilteredSites today fl sites
      = specFilteredSitesSome today fl sites := rfl

/-! ## C2 — streak invariant over all reachable documents -/

/-- One operation of the Persistence Store, with the inputs it reads from the
environment (clock instants, generated ids, caller data) recorded in the
constructor. -/
inductive Op where
  | checkIn (c : Clock) (siteId credId : String)
  | resetCred (siteId credId : String)
  | resetAll (c : Clock)
  | dailyReset (c : Clock)
  | addSite (c : Clock) (genId : String) (d : StorageService.SiteData)
  | updateSite (c : Clock) (id : String) (u : StorageService.SiteUpdates)
  | deleteSite (id : String)
  | addCategory (genId : String) (d : StorageService.CategoryData)
  | importData (p : Option StorageService.ImportPayload)

/-- The state transition of one operation (dropping the returned values). -/
def applyOp (st : DashState) : Op → DashState
  | .checkIn c sid cid => (StorageService.checkInCredential c sid cid st).2
  | .resetCred sid cid => (StorageService.resetCredential sid cid st).2
  | .resetAll c => StorageService.resetAllCredentials c st
  | .dailyReset c => StorageService.checkDailyReset c st
  | .addSite c genId d => (StorageService.addSite c genId d st).2
  | .updateSite c id u => (StorageService.updateSite c id u st).2
  | .deleteSite id => (StorageService.deleteSite id st).2
  | .addCategory genId d => (StorageService.addCategory genId d st).2
  | .importData p => (StorageService.importData p st).2

/-- A finite run of operations from a starting document. -/
def applyOps (st : DashState) (ops : List Op) : DashState :=
  ops.foldl applyOp st

/-- A real clock instant: new Date().toISOString() is never the empty
string. -/
def ClockOk (c : Clock) : Prop := ¬(c.now = "")

/-- Validity of one operation's recorded environment inputs. -/
def OpOk : Op → Prop
  | .checkIn c _ _ => ClockOk c
  | _ => True

/-- The streak invariant of the claim. -/
def streakInv (st : DashState) : Prop :=
  st.analytics.currentStreak ≤ st.analytics.longestStreak

theorem clamp_inv (a : Analytics) :
    (if a.currentStreak > a.longestStreak then
        { a with longestStreak := a.currentStreak }
      else a).currentStreak
    ≤ (if a.currentStreak > a.longestStreak then
        { a with longestStreak := a.currentStreak }
      else a).longestStreak := by
  obtain ⟨t, cs, ls, ad, sa, sar, lc⟩ := a
  dsimp only
  split_ifs <;> dsimp only <;> omega

theorem updateStreak_inv (c : Clock) (st : DashState)
    (h : jsTruthyStr st.analytics.lastCheckIn = true) :
    streakInv (StorageService.updateStreak c st) := by
  unfold streakInv StorageService.updateStreak
  rw [h]
  simp only [Bool.not_true, Bool.false_eq_true, if_false]
  exact clamp_inv _

theorem checkIn_inv (c : Clock) (sid cid : String) (st : DashState)
    (hc : ClockOk c) (h : streakInv st) :
    streakInv (StorageService.checkInCredential c sid cid st).2 := by
  unfold StorageService.checkInCredential
  cases hfs : st.sites.find? (fun s => s.id == sid) with
  | none => simpa using h
  | some site =>
    cases hfc : site.credentials.find? (fun cr => cr.id == cid) with
    | none =>
      simp only [hfc]
      simpa using h
    | some cr =>
      simp only [hfc]
      apply updateStreak_inv
      have hne : (c.now == "") = false := beq_eq_false_iff_ne.mpr hc
      simp [jsTruthyStr, hne]

theorem applyOp_inv (st : DashState) (op : Op) (hop : OpOk op)
    (h : streakInv st) : streakInv (applyOp st op) := by
  cases op with
  | checkIn c sid cid => exact checkIn_inv c sid cid st hop h
  | resetCred sid cid =>
    have ha : (StorageService.resetCredential sid cid st).2.analytics
        = st.analytics := by
      unfold StorageService.resetCredential
      cases hfs : st.sites.find? (fun s => s.id == sid) with
      | none => simp [hfs]
      | some site =>
        cases hfc : site.credentials.find? (fun cr => cr.id == cid) <;>
          simp [hfs, hfc]
    unfold applyOp streakInv
    rw [ha]
    exact h
  | resetAll c =>
    unfold applyOp streakInv StorageService.resetAllCredentials
    exact h
  | dailyReset c =>
    have ha : (StorageService.checkDailyReset c st).analytics
        = st.analytics := by
      unfold StorageService.checkDailyReset
      split
      · rfl
      · split <;> rfl
    unfold applyOp streakInv
    rw [ha]
    exact h
  | addSite c genId d =>
    unfold applyOp streakInv StorageService.addSite
    exact h
  | updateSite c id u =>
    have ha : (StorageService.updateSite c id u st).2.analytics
        = st.analytics := by
      unfold StorageService.updateSite
      cases hfs : st.sites.find? (fun s => s.id == id) <;> simp [hfs]
    unfold applyOp streakInv
    rw [ha]
    exact h
  | deleteSite id =>
    have h1 : (StorageService.deleteSite id st).2.analytics.currentStreak
        = st.analytics.currentStreak := by
      unfold StorageService.deleteSite
      cases hfs : st.sites.find? (fun s => s.id == id) <;> simp [hfs]
    have h2 : (StorageService.deleteSite id st).2.analytics.longestStreak
        = st.analytics.longestStreak := by
      unfold StorageService.deleteSite
      cases hfs : st.sites.find? (fun s => s.id == id) <;> simp [hfs]
    unfold applyOp streakInv
    rw [h1, h2]
    exact h
  | addCategory genId d =>
    unfold applyOp streakInv StorageService.addCategory
    exact h
  | importData p =>
    have ha : (StorageService.importData p st).2.analytics = st.analytics := by
      unfold StorageService.importData
      cases p <;> rfl
    unfold applyOp streakInv
    rw [ha]
    exact h

theorem applyOps_inv (ops : List Op) :
    ∀ st : DashState, streakInv st → (∀ op ∈ ops, OpOk op) →
      streakInv (applyOps st ops) := by
  induction ops with
  | nil => intro st h _; exact h
  | cons op ops ih =>
    intro st h hops
    have h1 : streakInv (applyOp st op) :=
      applyOp_inv st op (hops op (List.mem_cons_self op ops)) h
    exact ih (applyOp st op) h1
      (fun o ho => hops o (List.mem_cons_of_mem op ho))

/-- C2: from the bootstrap default document, every document reachable by a
finite sequence of store operations (check-ins issued at real clock instants,
resets, site CRUD, category insertion, imports) satisfies
currentStreak ≤ longestStreak.  The clamp at the end of updateStreak raises
longestStreak to currentStreak whenever the latter would overtake it, and no
other operation writes either counter. -/
theorem streak_invariant_reachable (c0 : Clock) (idGen : Nat → String)
    (ops : List Op) (hops : ∀ op ∈ ops, OpOk op) :
    streakInv (applyOps (StorageService.initializeDefaultState c0 idGen) ops)
    := by
  apply applyOps_inv ops _ _ hops
  simp [StorageService.initializeDefaultState, streakInv]

/-- C2 witness: a concrete run — add a site carrying a credential, check it
in twice, run a daily reset, delete and re-import — keeps the invariant. -/
theorem streak_invariant_reachable_witness :
    streakInv (applyOps
      (StorageService.initializeDefaultState sampleClock
        (fun n => toString n))
      [Op.addSite sampleClock "gen-1"
        { id := none, createdAt := none, updatedAt := none, name := "Example",
          url := "https://example.com", category := none, tags := none,
          credentials := [sampleCred] },
       Op.checkIn sampleClock "gen-1" "c1",
       Op.checkIn sampleClock "gen-1" "c1",
       Op.dailyReset resetClock,
       Op.deleteSite "gen-1",
       Op.importData (some { sites := [sampleSite], categories := none })]) :=
  streak_invariant_reachable sampleClock (fun n => toString n) _
    (by
      intro op hop
      simp only [List.mem_cons, List.not_mem_nil, or_false] at hop
      rcases hop with rfl | rfl | rfl | rfl | rfl | rfl <;>
        first
          | exact trivial
          | exact (by decide : ¬(sampleClock.now = "")))

/-! ## C6 — history cap -/

theorem checkInUpdCred_id (c : Clock) (cr : Credential) :
    (StorageService.checkInUpdCred c cr).id = cr.id := rfl

theorem checkInUpdCred_hist (c : Clock) (cr : Credential) :
    (StorageService.checkInUpdCred c cr).checkInHistory
      = some ((StorageService.entryOf c :: cr.checkInHistory.getD []).take
          CONFIG_limits_maxHistoryEntries) := by
  unfold StorageService.checkInUpdCred
  rw [if_pos (by rfl)]
  dsimp only
  split
  · rfl
  · next hle =>
    rw [List.take_of_length_le (by omega)]

/-- The site updater inside checkInCredential: replace the first matching
credential by its checked-in form. -/
def checkInUpdSite (c : Clock) (cid : String) (s : Site) : Site :=
  let creds1 :=
    replaceFirst (fun cr => cr.id == cid) (StorageService.checkInUpdCred c)
      s.credentials
  { s with credentials := creds1 }

theorem checkIn_step (c : Clock) (sid cid : String) (st : DashState)
    (site : Site) (cred : Credential)
    (hs : st.sites.find? (fun s => s.id == sid) = some site)
    (hc : site.credentials.find? (fun cr => cr.id == cid) = some cred) :
    ∃ site',
      (StorageService.checkInCredential c sid cid st).2.sites.find?
          (fun s => s.id == sid) = some site'
      ∧ site'.credentials.find? (fun cr => cr.id == cid)
          = some (StorageService.checkInUpdCred c cred) := by
  have hsid := List.find?_some hs
  have hcid := List.find?_some hc
  have hsites : (StorageService.checkInCredential c sid cid st).2.sites
      = replaceFirst (fun s => s.id == sid) (checkInUpdSite c cid)
          st.sites := by
    unfold StorageService.checkInCredential
    simp only [hs, hc]
    unfold StorageService.updateStreak
    split
    · rfl
    · rfl
  rw [hsites]
  refine ⟨_, find?_replaceFirst hs ?_, ?_⟩
  · exact hsid
  · exact find?_replaceFirst hc hcid

/-- The result of n successive check-ins of the same credential. -/
def applyCheckIns (cs : List Clock) (sid cid : String) (st : DashState) :
    DashState :=
  cs.foldl (fun s c => (StorageService.checkInCredential c sid cid s).2) st

theorem checkIn_iter (cs : List Clock) (sid cid : String) :
    ∀ (st : DashState) (site : Site) (cred : Credential),
      st.sites.find? (fun s => s.id == sid) = some site →
      site.credentials.find? (fun cr => cr.id == cid) = some cred →
      ∃ site' cred',
        (applyCheckIns cs sid cid st).sites.find? (fun s => s.id == sid)
          = some site'
        ∧ site'.credentials.find? (fun cr => cr.id == cid) = some cred'
        ∧ cred'.checkInHistory.getD []
            = (cs.map StorageService.entryOf).foldl
                (fun h e => (e :: h).take CONFIG_limits_maxHistoryEntries)
                (cred.checkInHistory.getD []) := by
  induction cs with
  | nil =>
    intro st site cred hs hc
    exact ⟨site, cred, hs, hc, rfl⟩
  | cons c cs ih =>
    intro st site cred hs hc
    obtain ⟨site1, hs1, hc1⟩ := checkIn_step c sid cid st site cred hs hc
    obtain ⟨site', cred', h1, h2, h3⟩ :=
      ih _ site1 (StorageService.checkInUpdCred c cred) hs1 hc1
    refine ⟨site', cred', h1, h2, ?_⟩
    rw [h3, checkInUpdCred_hist]
    simp only [Option.getD_some, List.map_cons, List.foldl_cons]

theorem foldl_take_cons {α : Type} (n : Nat) :
    ∀ (es : List α) (h : List α), es ≠ [] →
      es.foldl (fun h e => (e :: h).take n) h = (es.reverse ++ h).take n := by
  intro es
  induction es with
  | nil => intro h hne; exact absurd rfl hne
  | cons e es ih =>
    intro h _
    cases es with
    | nil => simp
    | cons e2 es2 =>
      have step : (e :: e2 :: es2).foldl (fun h e => (e :: h).take n) h
          = (e2 :: es2).foldl (fun h e => (e :: h).take n) ((e :: h).take n)
          := rfl
      rw [step, ih ((e :: h).take n) (by simp), take_append_take]
      simp [List.reverse_cons, List.append_assoc]

/-- C6: starting from any document in which (siteId, credentialId) names an
existing credential with any starting history, a run of at least 100
successive check-ins leaves that credential's checkInHistory holding exactly
the cap of 100 entries, namely the entries of the 100 most recent check-ins
in most-recent-first order; all older entries have been evicted. -/
theorem checkInHistory_cap (cs : List Clock) (sid cid : String)
    (st : DashState) (site : Site) (cred : Credential)
    (hs : st.sites.find? (fun s => s.id == sid) = some site)
    (hc : site.credentials.find? (fun cr => cr.id == cid) = some cred)
    (hlen : 100 ≤ cs.length) :
    ∃ site' cred',
      (applyCheckIns cs sid cid st).sites.find? (fun s => s.id == sid)
        = some site'
      ∧ site'.credentials.find? (fun cr => cr.id == cid) = some cred'
      ∧ cred'.checkInHistory.getD []
          = ((cs.map StorageService.entryOf).reverse).take 100
      ∧ (cred'.checkInHistory.getD []).length = 100 := by
  obtain ⟨site', cred', h1, h2, h3⟩ := checkIn_iter cs sid cid st site cred
    hs hc
  have hne : cs.map StorageService.entryOf ≠ [] := by
    intro h0
    have := congrArg List.length h0
    simp only [List.length_map, List.length_nil] at this
    omega
  rw [foldl_take_cons CONFIG_limits_maxHistoryEntries _ _ hne] at h3
  have hrevlen : 100 ≤ (cs.map StorageService.entryOf).reverse.length := by
    simpa using hlen
  rw [show CONFIG_limits_maxHistoryEntries = 100 from rfl,
      List.take_append_of_le_length hrevlen] at h3
  refine ⟨site', cred', h1, h2, h3, ?_⟩
  rw [h3, List.length_take]
  exact Nat.min_eq_left hrevlen

/-- C6 witness: 101 check-ins of the concrete sample credential. -/
theorem checkInHistory_cap_witness :
    ∃ site' cred',
      (applyCheckIns (List.replicate 101 sampleClock) "s1" "c1"
          streakState).sites.find? (fun s => s.id == "s1") = some site'
      ∧ site'.credentials.find? (fun cr => cr.id == "c1") = some cred'
      ∧ cred'.checkInHistory.getD []
          = (((List.replicate 101 sampleClock).map
              StorageService.entryOf).reverse).take 100
      ∧ (cred'.checkInHistory.getD []).length = 100 :=
  checkInHistory_cap (List.replicate 101 sampleClock) "s1" "c1" streakState
    sampleSite sampleCred (by decide) (by decide) (by decide)

/-! ## C4 — migration idempotence -/

theorem cmpParts_nil_nonneg : ∀ l : List Nat, 0 ≤ MigrationService.cmpParts l []
  | [] => by simp [MigrationService.cmpParts, MigrationService.cmpZeros]
  | x :: xs => by
    simp only [MigrationService.cmpParts]
    split
    · omega
    · exact cmpParts_nil_nonneg xs

theorem cmpParts_zero1_nonneg :
    ∀ l : List Nat, 0 ≤ MigrationService.cmpParts l [0]
  | [] => by simp [MigrationService.cmpParts, MigrationService.cmpZeros]
  | x :: xs => by
    simp only [MigrationService.cmpParts]
    split
    · omega
    · split
      · omega
      · exact cmpParts_nil_nonneg xs

theorem cmpParts_zero2_nonneg :
    ∀ l : List Nat, 0 ≤ MigrationService.cmpParts l [0, 0]
  | [] => by simp [MigrationService.cmpParts, MigrationService.cmpZeros]
  | x :: xs => by
    simp only [MigrationService.cmpParts]
    split
    · omega
    · split
      · omega
      · exact cmpParts_zero1_nonneg xs

theorem cmpParts_lt_100 (l : List Nat)
    (h : MigrationService.cmpParts l [1, 0, 0] < 0) :
    MigrationService.cmpParts l [2, 0, 0] < 0 := by
  cases l with
  | nil => simp_all [MigrationService.cmpParts, MigrationService.cmpZeros]
  | cons x xs =>
    simp only [MigrationService.cmpParts] at h ⊢
    by_cases hx : x < 1
    · rw [if_pos (by omega)]
      decide
    · rw [if_neg hx] at h
      by_cases hx2 : x > 1
      · rw [if_pos hx2] at h
        omega
      · rw [if_neg hx2] at h
        have := cmpParts_zero2_nonneg xs
        omega

theorem compareVersions_lt_100 (v : String)
    (h : MigrationService.compareVersions v "1.0.0" < 0) :
    MigrationService.compareVersions v "2.0.0" < 0 := by
  unfold MigrationService.compareVersions at h ⊢
  have e1 : (MigrationService.splitCh '.' "1.0.0".data).map
      MigrationService.jsNum = [1, 0, 0] := by decide
  have e2 : (MigrationService.splitCh '.' "2.0.0".data).map
      MigrationService.jsNum = [2, 0, 0] := by decide
  rw [e1] at h
  rw [e2]
  exact cmpParts_lt_100 _ h

theorem migrate_noop (env : MigrationService.MigEnv) (d : MigrationService.MigDoc)
    (h1 : ¬(MigrationService.compareVersions (jsOrStr d.version "0.0.0")
        "1.0.0" < 0))
    (h2 : ¬(MigrationService.compareVersions (jsOrStr d.version "0.0.0")
        "2.0.0" < 0)) :
    MigrationService.migrate env (some d) = some d := by
  unfold MigrationService.migrate
  dsimp only
  rw [if_neg h1, if_neg h2]

theorem migrate_version_200 (env : MigrationService.MigEnv)
    (d : MigrationService.MigDoc)
    (h2 : MigrationService.compareVersions (jsOrStr d.version "0.0.0")
        "2.0.0" < 0) :
    ∃ m : MigrationService.MigDoc,
      MigrationService.migrate env (some d) = some m
      ∧ m.version = some "2.0.0" := by
  unfold MigrationService.migrate
  dsimp only
  rw [if_pos h2]
  exact ⟨_, rfl, rfl⟩

/-- C4: migrate is idempotent — running the migration chain a second time on
any output of the chain changes nothing — and a document already carrying the
current version (2.1.0) passes through with no migration step applied and is
returned unchanged. -/
theorem migrate_idempotent (env : MigrationService.MigEnv)
    (d0 : Option MigrationService.MigDoc) :
    MigrationService.migrate env (MigrationService.migrate env d0)
      = MigrationService.migrate env d0
    ∧ ∀ d : MigrationService.MigDoc, d.version = some CONFIG_app_version →
        MigrationService.migrate env (some d) = some d := by
  constructor
  · cases d0 with
    | none => rfl
    | some d =>
      by_cases h2 : MigrationService.compareVersions
          (jsOrStr d.version "0.0.0") "2.0.0" < 0
      · obtain ⟨m, hm, hv⟩ := migrate_version_200 env d h2
        rw [hm]
        apply migrate_noop
        · rw [hv]
          decide
        · rw [hv]
          decide
      · have h1 : ¬(MigrationService.compareVersions
            (jsOrStr d.version "0.0.0") "1.0.0" < 0) :=
          fun h1 => h2 (compareVersions_lt_100 _ h1)
        rw [migrate_noop env d h1 h2]
        exact migrate_noop env d h1 h2
  · intro d hv
    apply migrate_noop
    · rw [hv]
      decide
    · rw [hv]
      decide

/-- A concrete migration environment. -/
def migEnv0 : MigrationService.MigEnv :=
  { today := "2025-01-02", originOf := fun _ => none }

/-- A minimal document already at the current version. -/
def migDoc0 : MigrationService.MigDoc :=
  { version := some CONFIG_app_version, lastReset := none, settings := none,
    categories := none, sites := none, analytics := none }

/-- C4 witness: migrating the already-current document is a no-op. -/
theorem migrate_idempotent_witness :
    MigrationService.migrate migEnv0 (some migDoc0) = some migDoc0 :=
  (migrate_idempotent migEnv0 (some migDoc0)).2 migDoc0 rfl

/-! ## C8 — encryption round-trip -/

/-- C8: for every payload type, every payload d, every password and every
fresh salt and iv, decrypting the envelope produced by encrypt with the same
password recovers d, assuming the standard correctness of the external
primitives: the JSON/UTF-8 serializer round-trips on d, the base64 codec
round-trips on byte lists, and AES-GCM decryption inverts encryption under
the same key and iv.  The content of the theorem is that the envelope wiring
of CryptoService is right: the stored salt feeds the same key derivation on
both sides, the stored iv and ciphertext feed the decryptor, and the
iteration count and password are threaded consistently. -/
theorem decrypt_encrypt_roundtrip {α : Type}
    (P : CryptoService.CryptoPrims α) (d : α) (pw : String)
    (salt iv : List Nat)
    (hparse : P.parseBytes (P.stringifyBytes d) = some d)
    (hb64 : ∀ bs, P.b64dec (P.b64enc bs) = bs)
    (haes : ∀ k i m, P.aesDecrypt k i (P.aesEncrypt k i m) = some m) :
    CryptoService.decrypt P (CryptoService.encrypt P salt iv d pw) pw
      = some d := by
  unfold CryptoService.decrypt CryptoService.encrypt
  simp only [hb64, haes, hparse]

/-- Concrete primitives exercising the round-trip theorem: payloads are
single numbers, the cipher is the identity on byte lists, and base64 is
replaced by the provably invertible unary codec. -/
def witPrims : CryptoService.CryptoPrims Nat :=
  { stringifyBytes := fun n => [n]
    parseBytes := fun l => match l with | [n] => some n | _ => none
    deriveKeyBits := fun _ salt => salt
    aesEncrypt := fun _ _ m => m
    aesDecrypt := fun _ _ ct => some ct
    b64enc := unaryEnc
    b64dec := unaryDec }

/-- C8 witness: a fully concrete encrypt-then-decrypt run. -/
theorem decrypt_encrypt_roundtrip_witness :
    CryptoService.decrypt witPrims
      (CryptoService.encrypt witPrims [3, 1] [7] 42 "pw") "pw" = some 42 :=
  decrypt_encrypt_roundtrip witPrims 42 "pw" [3, 1] [7] rfl unary_roundtrip
    (fun _ _ _ => rfl)

end DashOrg
